import Mathlib

/-!
Verification development for the variational empowerment estimators of
`variational_empowerment.py` (joint and transfer variants).

Tensors with a batch dimension are modelled as lists of rows over `ℚ`
(`Mat`); `torch.cat(.., dim=1)` is row-wise concatenation; column slicing
`t[:, a:b]` is `sliceCols`.  Neural networks (`MLPNetwork` from
`utils.networks`, an external collaborator) are modelled by their
construction data (input/output width, parameter vector, train/eval mode,
device); their forward pass and the stochastic `gumbel_softmax` sampler
are abstracted as function arguments, since their internals are outside
the repository.  Optimizer steps are abstracted as per-parameter deltas
applied to exactly the parameters the optimizer was constructed over.
-/

namespace SocialEmpowerment

/-- A batched tensor: a list of rows, each row a list of rationals. -/
abbrev Mat := List (List ℚ)

/-- The column count `t.shape[1]`: the column count of a batched tensor, read off the first row. -/
def matWidth (m : Mat) : Nat := (m.headD []).length

/-- Column slicing `t[:, a:b]`: keep columns `a ≤ j < b` of every row. -/
def sliceCols (m : Mat) (a b : Nat) : Mat :=
  m.map (fun r => (r.drop a).take (b - a))

/-- Row-wise concatenation `torch.cat((m1, m2), dim=1)` for two equally-batched tensors. -/
def hcat (m₁ m₂ : Mat) : Mat := List.zipWith (· ++ ·) m₁ m₂

/-- Row-wise concatenation `torch.cat(ms, dim=1)` over a list of equally-batched tensors. -/
def hcatAll : List Mat → Mat
  | [] => []
  | [m] => m
  | m :: ms => hcat m (hcatAll ms)

/-- Elementwise product `A * B` of two tensors. -/
def matHadamard (A B : Mat) : Mat := List.zipWith (List.zipWith (· * ·)) A B

/-- Elementwise difference `A - B` of two tensors. -/
def matSub (A B : Mat) : Mat := List.zipWith (List.zipWith (· - ·)) A B

/-- Sum of all entries of a tensor. -/
def matSum (A : Mat) : ℚ := (A.map (fun r => r.sum)).sum

/-- Number of entries of a tensor. -/
def matCount (A : Mat) : Nat := (A.map List.length).sum

/-- The mean `t.mean()` over all entries. -/
def matMean (A : Mat) : ℚ := matSum A / (matCount A : ℚ)

/-- Mean squared error `torch.nn.MSELoss()(a, b)`: mean of the squared elementwise differences. -/
def MSELoss (a b : Mat) : ℚ := matMean (matHadamard (matSub a b) (matSub a b))

/-- The host device tag. -/
def cpuDev : String := "cpu"

/-- The accelerator device tag. -/
def gpuDev : String := "gpu"

/-- Train/eval mode of a torch module. -/
inductive Mode where
  | train : Mode
  | eval : Mode
deriving DecidableEq

/-- Model of `utils.networks.MLPNetwork`: the construction data the estimator
code observes — input and output width, a parameter vector, the module's
mode and device.  The forward pass is external and abstracted elsewhere. -/
structure MLPNetwork where
  num_in : Nat
  num_out : Nat
  params : List ℚ
  mode : Mode
  dev : String
deriving DecidableEq

/-- Constructor call `MLPNetwork(nin, nout, recurrent=True)`: fresh module in train mode on the
cpu; the random parameter initialisation is abstracted by `pinit`. -/
def MLPNetwork.new (nin nout : Nat) (pinit : Nat → Nat → List ℚ) : MLPNetwork :=
  { num_in := nin, num_out := nout, params := pinit nin nout,
    mode := Mode.train, dev := cpuDev }

/-- Put the module in train mode, as `m.train()` does. -/
def MLPNetwork.setTrain (m : MLPNetwork) : MLPNetwork := { m with mode := Mode.train }

/-- Put the module in eval mode, as `m.eval()` does. -/
def MLPNetwork.setEval (m : MLPNetwork) : MLPNetwork := { m with mode := Mode.eval }

/-- The move function `fn`, cuda when the request is 'gpu', cpu otherwise;
torch modules move in place, modelled as updating the device field. -/
def prepFn (device : String) : MLPNetwork → MLPNetwork :=
  if device = gpuDev then (fun m => { m with dev := gpuDev })
  else (fun m => { m with dev := cpuDev })

/-- One agent's spaces in the environment: observation width `obsp.shape[0]`
and discrete action cardinality `acsp.n`. -/
structure Space where
  obs : Nat
  act : Nat
deriving DecidableEq

/-- The six sizing accumulators of `VariationalJointEmpowerment.init_from_env`,
all initialised to 0 before the loop. -/
structure JointSizing where
  num_in_source : Nat
  num_out_source : Nat
  num_in_planning : Nat
  num_out_planning : Nat
  num_in_transition : Nat
  num_out_transition : Nat
deriving DecidableEq

/-- One iteration of the sizing loop of the joint factory: the source and
planning sizes are plain assignments (last value wins), the transition sizes
accumulate. -/
def jointSizingStep (acc : JointSizing) (sp : Space) : JointSizing :=
  { num_in_source := sp.obs,
    num_out_source := sp.act,
    num_in_planning := 2 * sp.obs,
    num_out_planning := sp.act,
    num_in_transition := acc.num_in_transition + (sp.obs + sp.act),
    num_out_transition := acc.num_out_transition + sp.obs }

/-- The `init_params` dict of the joint variant. -/
structure JointInitParams where
  num_in_src : Nat
  num_in_plan : Nat
  num_in_trans : Nat
  num_out_src : Nat
  num_out_plan : Nat
  num_out_trans : Nat
deriving DecidableEq

/-- Instance state of `VariationalJointEmpowerment`: the three shared
networks, the three device tags and the update counter. -/
structure VariationalJointEmpowerment where
  transition : MLPNetwork
  source : MLPNetwork
  planning : MLPNetwork
  trans_dev : String
  source_dev : String
  plan_dev : String
  niter : Nat
deriving DecidableEq

namespace VariationalJointEmpowerment

/-- Constructor `VariationalJointEmpowerment.__init__(init_params, lr)`: builds the three
networks from the init parameters; devices start at `'cpu'`, `niter` at 0. -/
def new (ip : JointInitParams) (pinit : Nat → Nat → List ℚ) :
    VariationalJointEmpowerment :=
  { transition := MLPNetwork.new ip.num_in_trans ip.num_out_trans pinit,
    source := MLPNetwork.new ip.num_in_src ip.num_out_src pinit,
    planning := MLPNetwork.new ip.num_in_plan ip.num_out_plan pinit,
    trans_dev := cpuDev, source_dev := cpuDev, plan_dev := cpuDev, niter := 0 }

/-- Factory `VariationalJointEmpowerment.init_from_env(env)`: runs the sizing loop,
packs `init_params`, constructs the instance and stores `init_dict`
(returned as the second component). -/
def init_from_env (env : List Space) (pinit : Nat → Nat → List ℚ) :
    VariationalJointEmpowerment × JointInitParams :=
  let z := env.foldl jointSizingStep ⟨0, 0, 0, 0, 0, 0⟩
  let init_params : JointInitParams :=
    { num_in_src := z.num_in_source,
      num_in_plan := z.num_in_planning,
      num_in_trans := z.num_in_transition,
      num_out_src := z.num_out_source,
      num_out_plan := z.num_out_planning,
      num_out_trans := z.num_out_transition }
  (new init_params pinit, init_params)

end VariationalJointEmpowerment

/-- One per-agent entry of the transfer variant's `init_params` list. -/
structure TransferInitParams where
  num_in_src : Nat
  num_in_plan : Nat
  num_out_src : Nat
  num_out_plan : Nat
deriving DecidableEq

/-- The per-agent init-params record built by the transfer factory's loop
body for one agent. -/
def transferParamsOf (sp : Space) : TransferInitParams :=
  { num_in_src := sp.obs,
    num_in_plan := 2 * sp.obs,
    num_out_src := sp.act,
    num_out_plan := sp.act }

/-- The `init_dict` stored by `VariationalTransferEmpowerment.init_from_env`. -/
structure TransferInitDict where
  lr : ℚ
  hidden_dim : Nat
  init_params : List TransferInitParams
  num_in_trans : Nat
  num_out_trans : Nat
  recurrent : Bool
  convolutional : Bool

/-- Instance state of `VariationalTransferEmpowerment`: one shared transition
network, per-agent source and planning networks, device tags, counter. -/
structure VariationalTransferEmpowerment where
  transition : MLPNetwork
  source : List MLPNetwork
  planning : List MLPNetwork
  trans_dev : String
  source_dev : String
  plan_dev : String
  niter : Nat
deriving DecidableEq

namespace VariationalTransferEmpowerment

/-- Constructor `VariationalTransferEmpowerment.__init__`: one transition network of the
given widths and one source/planning network per `init_params` entry.
`lr` feeds the (abstracted) optimizers; `hidden_dim`, `recurrent` and
`convolutional` are accepted but the networks are built with
`recurrent=True` regardless, as in the source. -/
def new (init_params : List TransferInitParams) (num_in_trans num_out_trans : Nat)
    (lr : ℚ) (hidden_dim : Nat) (recurrent convolutional : Bool)
    (pinit : Nat → Nat → List ℚ) : VariationalTransferEmpowerment :=
  { transition := MLPNetwork.new num_in_trans num_out_trans pinit,
    source := init_params.map (fun p => MLPNetwork.new p.num_in_src p.num_out_src pinit),
    planning := init_params.map (fun p => MLPNetwork.new p.num_in_plan p.num_out_plan pinit),
    trans_dev := cpuDev, source_dev := cpuDev, plan_dev := cpuDev, niter := 0 }

/-- One iteration of the transfer factory's loop: appends the agent's
init-params record and accumulates the transition widths. -/
def sizingStep (acc : List TransferInitParams × Nat × Nat) (sp : Space) :
    List TransferInitParams × Nat × Nat :=
  (acc.1 ++ [transferParamsOf sp], acc.2.1 + (sp.obs + sp.act), acc.2.2 + sp.obs)

/-- Factory `VariationalTransferEmpowerment.init_from_env(env, lr, hidden_dim,
recurrent, convolutional)`: runs the loop, packs `init_dict`, constructs the
instance via `cls(**init_dict)` and stores `init_dict`. -/
def init_from_env (env : List Space) (lr : ℚ) (hidden_dim : Nat)
    (recurrent convolutional : Bool) (pinit : Nat → Nat → List ℚ) :
    VariationalTransferEmpowerment × TransferInitDict :=
  let z := env.foldl sizingStep ([], 0, 0)
  let init_dict : TransferInitDict :=
    { lr := lr, hidden_dim := hidden_dim, init_params := z.1,
      num_in_trans := z.2.1, num_out_trans := z.2.2,
      recurrent := recurrent, convolutional := convolutional }
  (new init_dict.init_params init_dict.num_in_trans init_dict.num_out_trans
     init_dict.lr init_dict.hidden_dim init_dict.recurrent init_dict.convolutional
     pinit,
   init_dict)

end VariationalTransferEmpowerment

/-- Owner role of a parameter inside a joint-variant estimator. -/
inductive Group where
  | trans : Group
  | src : Group
  | plan : Group
deriving DecidableEq

/-- The references `list(net.parameters())` contributes to an optimizer:
one `(role, index)` per parameter of the network. -/
def paramRefs (g : Group) (n : Nat) : List (Group × Nat) :=
  (List.range n).map (fun i => (g, i))

/-- One optimizer step restricted to a parameter vector of role `g`: exactly
the parameters referenced by the optimizer move, by the (abstracted Adam)
delta `δ`; all others are untouched. -/
def updateParams (refs : List (Group × Nat)) (δ : Group → Nat → ℚ)
    (g : Group) (ps : List ℚ) : List ℚ :=
  ps.mapIdx (fun i p => if (g, i) ∈ refs then p + δ g i else p)

/-- One logger record: `logger.add_scalars('empowerment/losses', {...}, niter)`
carries the three scalar losses and the step index. -/
structure LogEntry where
  trans_loss : ℚ
  plan_loss : ℚ
  i_rews : ℚ
  step : Nat
deriving DecidableEq

/-- The width `n_obs = len(next_obs[0][0])`: the first agent's observation width. -/
def jointNObs (next_obs : List Mat) : Nat := ((next_obs.headD []).headD []).length

namespace VariationalJointEmpowerment

/-- Optimizer `Adam(self.transition.parameters(), lr=lr)`: references to all
transition parameters. -/
def transition_optimizer (s : VariationalJointEmpowerment) : List (Group × Nat) :=
  paramRefs Group.trans s.transition.params.length

/-- Optimizer `Adam(self.planning.parameters(), lr=lr)`: references to all planning
parameters. -/
def planning_optimizer (s : VariationalJointEmpowerment) : List (Group × Nat) :=
  paramRefs Group.plan s.planning.params.length

/-- Optimizer over source and planning parameters pooled, line 38:
references to all source parameters followed by all planning parameters. -/
def source_optimizer (s : VariationalJointEmpowerment) : List (Group × Nat) :=
  paramRefs Group.src s.source.params.length ++
    paramRefs Group.plan s.planning.params.length

/-- An `optimizer.step()` with reference set `refs` and abstracted per-parameter
deltas `δ`: every network keeps exactly its non-referenced parameters. -/
def optStep (s : VariationalJointEmpowerment) (refs : List (Group × Nat))
    (δ : Group → Nat → ℚ) : VariationalJointEmpowerment :=
  { s with
    transition := { s.transition with
      params := updateParams refs δ Group.trans s.transition.params },
    source := { s.source with
      params := updateParams refs δ Group.src s.source.params },
    planning := { s.planning with
      params := updateParams refs δ Group.plan s.planning.params } }

/-- The slice `trans_out[:, i*n_obs:(i+1)*n_obs]`: the fixed-uniform-width slice the
joint variant takes for agent `i` (lines 59-61 and 103-105). -/
def nnoSlice (trans_out : Mat) (n_obs i : Nat) : Mat :=
  sliceCols trans_out (i * n_obs) ((i + 1) * n_obs)

/-- The per-agent `nno` slices taken by the joint variant's `compute` and
`update` loops: one uniform block of width `n_obs = len(next_obs[0][0])`
per agent, in agent order. -/
def nnoSlices (trans_out : Mat) (next_obs : List Mat) : List Mat :=
  (next_obs.enum).map (fun ino => nnoSlice trans_out (jointNObs next_obs) ino.1)

/-- Method `VariationalJointEmpowerment.compute(rewards, next_obs)`.  `rewardsCols`
is `rewards.shape[1]`; `nextObsCol i` is `vstack(next_obs[:, i])`.  The
network forward pass `fwd` and the two gumbel-softmax samplers (hard and
soft, taking the device tag) abstract the external collaborators.  Runs
under `torch.no_grad()` and assigns no attribute, so the state is returned
unchanged. -/
def compute (fwd : MLPNetwork → Mat → Mat) (gH gS : String → Mat → Mat)
    (s : VariationalJointEmpowerment) (rewardsCols : Nat) (nextObsCol : Nat → Mat) :
    VariationalJointEmpowerment × List ℚ :=
  let next_obs := (List.range rewardsCols).map nextObsCol
  let acs_src := next_obs.map (fun no => gH s.source_dev (fwd s.source no))
  let prob_src := next_obs.map (fun no => gS s.source_dev (fwd s.source no))
  let trans_in := hcatAll (next_obs ++ acs_src)
  let trans_out := fwd s.transition trans_in
  let prob_plan := (next_obs.enum).map (fun ino =>
    let nno := nnoSlice trans_out (jointNObs next_obs) ino.1
    let plan_in := hcat ino.2 nno
    gS s.plan_dev (fwd s.planning plan_in))
  let E := matSub (matHadamard (hcatAll acs_src) (hcatAll prob_plan))
                  (matHadamard (hcatAll acs_src) (hcatAll prob_src))
  (s, (List.replicate rewardsCols (1 : ℚ)).map (fun x => matMean E * x))

/-- Method `VariationalJointEmpowerment.update(sample, logger)`.  The three
optimizer steps are abstracted per-optimizer deltas `δT`, `δP`, `δS`
applied over the respective optimizer's parameter references; the losses
are the forward values the code computes; with a logger present one record
is appended, tagged by `niter` before the final increment. -/
def update (fwd : MLPNetwork → Mat → Mat) (gH gS : String → Mat → Mat)
    (δT δP δS : Group → Nat → ℚ) (s : VariationalJointEmpowerment)
    (obs acs next_obs : List Mat) (logger : Option (List LogEntry)) :
    VariationalJointEmpowerment × Option (List LogEntry) :=
  let trans_in := hcatAll (obs ++ acs)
  let next_obs_pred := fwd s.transition trans_in
  let trans_loss := MSELoss next_obs_pred (hcatAll next_obs)
  let s1 := optStep s (transition_optimizer s) δT
  let acs_plan := (obs.zip next_obs).map (fun ono =>
    gH s1.plan_dev (fwd s1.planning (hcat ono.1 ono.2)))
  let plan_loss := MSELoss (hcatAll acs_plan) (hcatAll acs)
  let s2 := optStep s1 (planning_optimizer s1) δP
  let acs_src := next_obs.map (fun no => gH s2.source_dev (fwd s2.source no))
  let prob_src := next_obs.map (fun no => gS s2.source_dev (fwd s2.source no))
  let trans_out := fwd s2.transition (hcatAll (next_obs ++ acs_src))
  let prob_plan := (next_obs.enum).map (fun ino =>
    gS s2.plan_dev (fwd s2.planning
      (hcat ino.2 (nnoSlice trans_out (jointNObs next_obs) ino.1))))
  let E := matSub (matHadamard (hcatAll acs_src) (hcatAll prob_plan))
                  (matHadamard (hcatAll acs_src) (hcatAll prob_src))
  let i_rews := -(matMean E)
  let s3 := optStep s2 (source_optimizer s2) δS
  let logger' := match logger with
    | none => none
    | some l => some (l ++ [⟨trans_loss, plan_loss, i_rews, s3.niter⟩])
  ({ s3 with niter := s3.niter + 1 }, logger')

/-- Method `VariationalJointEmpowerment.prep_training(device)`: all three networks
are put in train mode; each group is moved (`fn`) exactly when its stored
device tag differs from the request; the second component records, in guard
order, the groups that were moved. -/
def prep_training (s : VariationalJointEmpowerment) (device : String) :
    VariationalJointEmpowerment × List Group :=
  let fn := prepFn device
  ({ transition := if s.trans_dev = device then s.transition.setTrain
                   else fn s.transition.setTrain,
     source := if s.source_dev = device then s.source.setTrain
               else fn s.source.setTrain,
     planning := if s.plan_dev = device then s.planning.setTrain
                 else fn s.planning.setTrain,
     trans_dev := if s.trans_dev = device then s.trans_dev else device,
     source_dev := if s.source_dev = device then s.source_dev else device,
     plan_dev := if s.plan_dev = device then s.plan_dev else device,
     niter := s.niter },
   (if s.trans_dev = device then [] else [Group.trans]) ++
     (if s.source_dev = device then [] else [Group.src]) ++
     (if s.plan_dev = device then [] else [Group.plan]))

/-- Method `VariationalJointEmpowerment.prep_rollouts(device)`: same device guards,
eval mode instead of train mode. -/
def prep_rollouts (s : VariationalJointEmpowerment) (device : String) :
    VariationalJointEmpowerment × List Group :=
  let fn := prepFn device
  ({ transition := if s.trans_dev = device then s.transition.setEval
                   else fn s.transition.setEval,
     source := if s.source_dev = device then s.source.setEval
               else fn s.source.setEval,
     planning := if s.plan_dev = device then s.planning.setEval
                 else fn s.planning.setEval,
     trans_dev := if s.trans_dev = device then s.trans_dev else device,
     source_dev := if s.source_dev = device then s.source_dev else device,
     plan_dev := if s.plan_dev = device then s.plan_dev else device,
     niter := s.niter },
   (if s.trans_dev = device then [] else [Group.trans]) ++
     (if s.source_dev = device then [] else [Group.src]) ++
     (if s.plan_dev = device then [] else [Group.plan]))

end VariationalJointEmpowerment

namespace VariationalTransferEmpowerment

/-- The per-agent `nno` slices taken by the transfer variant's `compute`
loop (lines 225-230): `start` is initialised to 0 and — unlike in `update`
— never advanced, so every agent's slice begins at column 0 and spans that
agent's own observation width. -/
def computeNnoSlices (trans_out : Mat) (next_obs : List Mat) : List Mat :=
  let start := 0
  next_obs.map (fun no => sliceCols trans_out start (start + matWidth no))

/-- The per-agent `nno` slices taken by the transfer variant's `update`
loop (lines 269-276): `start` begins at 0 and advances by each agent's
observation width, giving cumulative offsets. -/
def updateNnoSlices (trans_out : Mat) (next_obs : List Mat) : List Mat :=
  (next_obs.foldl
    (fun acc no =>
      (acc.1 ++ [sliceCols trans_out acc.2 (acc.2 + matWidth no)],
       acc.2 + matWidth no))
    (([] : List Mat), 0)).1

/-- Method `VariationalTransferEmpowerment.compute(rewards, next_obs)`: as in the
joint variant but with per-agent source/planning networks (`zip` truncates
to the shorter list, as in Python), and the `start`-at-0 slicing of
`computeNnoSlices`. -/
def compute (fwd : MLPNetwork → Mat → Mat) (gH gS : String → Mat → Mat)
    (s : VariationalTransferEmpowerment) (rewardsCols : Nat)
    (nextObsCol : Nat → Mat) :
    VariationalTransferEmpowerment × List ℚ :=
  let next_obs := (List.range rewardsCols).map nextObsCol
  let acs_src := (next_obs.zip s.source).map (fun p => gH s.source_dev (fwd p.2 p.1))
  let prob_src := (next_obs.zip s.source).map (fun p => gS s.source_dev (fwd p.2 p.1))
  let trans_in := hcatAll (next_obs ++ acs_src)
  let trans_out := fwd s.transition trans_in
  let start := 0
  let prob_plan := (next_obs.zip s.planning).map (fun p =>
    let nno := sliceCols trans_out start (start + matWidth p.1)
    gS s.plan_dev (fwd p.2 (hcat p.1 nno)))
  let E := matSub (matHadamard (hcatAll acs_src) (hcatAll prob_plan))
                  (matHadamard (hcatAll acs_src) (hcatAll prob_src))
  (s, (List.replicate rewardsCols (1 : ℚ)).map (fun x => matMean E * x))

/-- Step `self.transition_optimizer.step()` of the transfer variant, deltas
abstracted. -/
def optStepTrans (s : VariationalTransferEmpowerment) (δ : Nat → ℚ) :
    VariationalTransferEmpowerment :=
  { s with transition := { s.transition with
      params := s.transition.params.mapIdx (fun i p => p + δ i) } }

/-- Step `self.source_optimizer.step()`: the optimizer pools every per-agent
source network's parameters; `δ a i` is the delta of parameter `i` of
agent `a`'s network. -/
def optStepSource (s : VariationalTransferEmpowerment) (δ : Nat → Nat → ℚ) :
    VariationalTransferEmpowerment :=
  { s with source := s.source.mapIdx (fun a m =>
      { m with params := m.params.mapIdx (fun i p => p + δ a i) }) }

/-- Step `self.planning_optimizer.step()`: pooled per-agent planning parameters. -/
def optStepPlanning (s : VariationalTransferEmpowerment) (δ : Nat → Nat → ℚ) :
    VariationalTransferEmpowerment :=
  { s with planning := s.planning.mapIdx (fun a m =>
      { m with params := m.params.mapIdx (fun i p => p + δ a i) }) }

/-- Method `VariationalTransferEmpowerment.update(sample, logger)`: three optimizer
steps with abstracted deltas, cumulative (`start += length`) slicing in
step 3, one logger record tagged by `niter` before the final increment. -/
def update (fwd : MLPNetwork → Mat → Mat) (gH gS : String → Mat → Mat)
    (δT : Nat → ℚ) (δP δS : Nat → Nat → ℚ) (s : VariationalTransferEmpowerment)
    (obs acs next_obs : List Mat) (logger : Option (List LogEntry)) :
    VariationalTransferEmpowerment × Option (List LogEntry) :=
  let trans_in := hcatAll (obs ++ acs)
  let next_obs_pred := fwd s.transition trans_in
  let trans_loss := MSELoss next_obs_pred (hcatAll next_obs)
  let s1 := optStepTrans s δT
  let acs_plan := ((obs.zip next_obs).zip s1.planning).map (fun p =>
    gH s1.plan_dev (fwd p.2 (hcat p.1.1 p.1.2)))
  let plan_loss := MSELoss (hcatAll acs_plan) (hcatAll acs)
  let s2 := optStepPlanning s1 δP
  let acs_src := (next_obs.zip s2.source).map (fun p => gH s2.source_dev (fwd p.2 p.1))
  let prob_src := (next_obs.zip s2.source).map (fun p => gS s2.source_dev (fwd p.2 p.1))
  let trans_out := fwd s2.transition (hcatAll (next_obs ++ acs_src))
  let prob_plan := ((next_obs.zip s2.planning).foldl
    (fun acc p =>
      let len := matWidth p.1
      let nno := sliceCols trans_out acc.2 (acc.2 + len)
      (acc.1 ++ [gS s2.plan_dev (fwd p.2 (hcat p.1 nno))], acc.2 + len))
    (([] : List Mat), 0)).1
  let E := matSub (matHadamard (hcatAll acs_src) (hcatAll prob_plan))
                  (matHadamard (hcatAll acs_src) (hcatAll prob_src))
  let i_rews := -(matMean E)
  let s3 := optStepSource s2 δS
  let logger' := match logger with
    | none => none
    | some l => some (l ++ [⟨trans_loss, plan_loss, i_rews, s3.niter⟩])
  ({ s3 with niter := s3.niter + 1 }, logger')

/-- Method `VariationalTransferEmpowerment.prep_training(device)` (lines 294-312):
the transition network is put in train mode unconditionally; the per-agent
source and planning networks are moved **and** put in train mode only
inside the device guard for their group (the `.train()` call sits inside
the `if not self.source_dev == device` block).  The second component
records the moved groups. -/
def prep_training (s : VariationalTransferEmpowerment) (device : String) :
    VariationalTransferEmpowerment × List Group :=
  let fn := prepFn device
  ({ transition := if s.trans_dev = device then s.transition.setTrain
                   else fn s.transition.setTrain,
     source := if s.source_dev = device then s.source
               else s.source.map (fun m => (fn m).setTrain),
     planning := if s.plan_dev = device then s.planning
                 else s.planning.map (fun m => (fn m).setTrain),
     trans_dev := if s.trans_dev = device then s.trans_dev else device,
     source_dev := if s.source_dev = device then s.source_dev else device,
     plan_dev := if s.plan_dev = device then s.plan_dev else device,
     niter := s.niter },
   (if s.trans_dev = device then [] else [Group.trans]) ++
     (if s.source_dev = device then [] else [Group.src]) ++
     (if s.plan_dev = device then [] else [Group.plan]))

/-- Method `VariationalTransferEmpowerment.prep_rollouts(device)` (lines 314-336):
moves are guarded by the device tags, but the trailing loops put every
source and planning network in eval mode unconditionally. -/
def prep_rollouts (s : VariationalTransferEmpowerment) (device : String) :
    VariationalTransferEmpowerment :=
  let fn := prepFn device
  { transition := if s.trans_dev = device then s.transition.setEval
                  else (fn s.transition.setEval).setEval,
    source := (if s.source_dev = device then s.source
               else s.source.map fn).map MLPNetwork.setEval,
    planning := (if s.plan_dev = device then s.planning
                 else s.planning.map fn).map MLPNetwork.setEval,
    trans_dev := if s.trans_dev = device then s.trans_dev else device,
    source_dev := if s.source_dev = device then s.source_dev else device,
    plan_dev := if s.plan_dev = device then s.plan_dev else device,
    niter := s.niter }

end VariationalTransferEmpowerment

/-- The per-call inputs of one `update` call on the joint variant: forward
and sampler functions, the three optimizers' abstracted deltas, and the
batch tensors. -/
structure JointUpdateArgs where
  fwd : MLPNetwork → Mat → Mat
  gH : String → Mat → Mat
  gS : String → Mat → Mat
  dT : Group → Nat → ℚ
  dP : Group → Nat → ℚ
  dS : Group → Nat → ℚ
  obs : List Mat
  acs : List Mat
  next_obs : List Mat

/-- A sequence of `k` `update` calls on the joint variant starting from
`s0`, every call supplied with the (initially empty) logger. -/
def runJointUpdates (a : Nat → JointUpdateArgs) (s0 : VariationalJointEmpowerment) :
    Nat → VariationalJointEmpowerment × List LogEntry
  | 0 => (s0, [])
  | k + 1 =>
    let prev := runJointUpdates a s0 k
    let r := VariationalJointEmpowerment.update (a k).fwd (a k).gH (a k).gS
      (a k).dT (a k).dP (a k).dS prev.1 (a k).obs (a k).acs (a k).next_obs
      (some prev.2)
    (r.1, r.2.getD [])

/-- The per-call inputs of one `update` call on the transfer variant. -/
structure TransferUpdateArgs where
  fwd : MLPNetwork → Mat → Mat
  gH : String → Mat → Mat
  gS : String → Mat → Mat
  dT : Nat → ℚ
  dP : Nat → Nat → ℚ
  dS : Nat → Nat → ℚ
  obs : List Mat
  acs : List Mat
  next_obs : List Mat

/-- A sequence of `k` `update` calls on the transfer variant starting from
`s0`, every call supplied with the (initially empty) logger. -/
def runTransferUpdates (a : Nat → TransferUpdateArgs)
    (s0 : VariationalTransferEmpowerment) :
    Nat → VariationalTransferEmpowerment × List LogEntry
  | 0 => (s0, [])
  | k + 1 =>
    let prev := runTransferUpdates a s0 k
    let r := VariationalTransferEmpowerment.update (a k).fwd (a k).gH (a k).gS
      (a k).dT (a k).dP (a k).dS prev.1 (a k).obs (a k).acs (a k).next_obs
      (some prev.2)
    (r.1, r.2.getD [])

/-- A parameter initialiser that gives every network the empty parameter
vector; used for concrete test instances. -/
def zeroInit : Nat → Nat → List ℚ := fun _ _ => []

/-- A parameter initialiser giving every network a single zero parameter. -/
def oneParamInit : Nat → Nat → List ℚ := fun _ _ => [0]

/-- A two-agent environment with heterogeneous spaces, for witnesses. -/
def cenv2 : List Space := [⟨3, 2⟩, ⟨5, 4⟩]

/-- A stub transition output of width 10 (one batch row, columns 0..9). -/
def c1TransOut : Mat := [[0, 1, 2, 3, 4, 5, 6, 7, 8, 9]]

/-- Single-row next-observation batches of widths 3, 5 and 2. -/
def c1NextObs : List Mat := [[[0, 0, 0]], [[0, 0, 0, 0, 0]], [[0, 0]]]

/-- A concrete joint estimator whose three networks hold one parameter
each, for exercising the optimizer coupling. -/
def c7State : VariationalJointEmpowerment :=
  VariationalJointEmpowerment.new ⟨1, 1, 1, 1, 1, 1⟩ oneParamInit

/-- A concrete transfer estimator with one agent, built by the factory on a
one-agent environment. -/
def c4State : VariationalTransferEmpowerment :=
  (VariationalTransferEmpowerment.init_from_env [⟨2, 3⟩] (1/100) 64 false false
    zeroInit).1

/-- The joint sizing loop accumulates the transition widths: input grows by
`obs + act` and output by `obs` per agent. -/
theorem jointSizing_trans_sums (env : List Space) (a : JointSizing) :
    (env.foldl jointSizingStep a).num_in_transition
        = a.num_in_transition + (env.map (fun sp => sp.obs + sp.act)).sum ∧
      (env.foldl jointSizingStep a).num_out_transition
        = a.num_out_transition + (env.map Space.obs).sum := by
  induction env generalizing a with
  | nil => simp
  | cons sp tl ih =>
    simp only [List.foldl_cons, List.map_cons, List.sum_cons]
    obtain ⟨h1, h2⟩ := ih (jointSizingStep a sp)
    refine ⟨?_, ?_⟩
    · rw [h1]; simp only [jointSizingStep]; omega
    · rw [h2]; simp only [jointSizingStep]; omega

/-- The transfer sizing loop appends one record per agent and accumulates
the transition widths. -/
theorem transferSizing_foldl (env : List Space)
    (acc : List TransferInitParams × Nat × Nat) :
    env.foldl VariationalTransferEmpowerment.sizingStep acc
      = (acc.1 ++ env.map transferParamsOf,
         acc.2.1 + (env.map (fun sp => sp.obs + sp.act)).sum,
         acc.2.2 + (env.map Space.obs).sum) := by
  induction env generalizing acc with
  | nil => simp
  | cons sp tl ih =>
    simp only [List.foldl_cons, ih, VariationalTransferEmpowerment.sizingStep,
      List.map_cons, List.sum_cons, Prod.mk.injEq]
    refine ⟨?_, ?_, ?_⟩
    · simp
    · omega
    · omega

/-- C2: the joint variant's factory sizes the shared source and planning
networks from only the last agent's spaces: `num_in_src` is the last
agent's observation width, `num_out_src` its action cardinality,
`num_in_plan` twice its observation width and `num_out_plan` its action
cardinality, for every environment with at least one agent. -/
theorem C2_joint_factory_sizes_from_last_agent (env : List Space)
    (pinit : Nat → Nat → List ℚ) (h : env ≠ []) :
    ((VariationalJointEmpowerment.init_from_env env pinit).2.num_in_src,
     (VariationalJointEmpowerment.init_from_env env pinit).2.num_out_src,
     (VariationalJointEmpowerment.init_from_env env pinit).2.num_in_plan,
     (VariationalJointEmpowerment.init_from_env env pinit).2.num_out_plan)
      = ((env.getLastD ⟨0, 0⟩).obs, (env.getLastD ⟨0, 0⟩).act,
         2 * (env.getLastD ⟨0, 0⟩).obs, (env.getLastD ⟨0, 0⟩).act) ∧
    ((VariationalJointEmpowerment.init_from_env env pinit).1.source.num_in,
     (VariationalJointEmpowerment.init_from_env env pinit).1.source.num_out,
     (VariationalJointEmpowerment.init_from_env env pinit).1.planning.num_in,
     (VariationalJointEmpowerment.init_from_env env pinit).1.planning.num_out)
      = ((env.getLastD ⟨0, 0⟩).obs, (env.getLastD ⟨0, 0⟩).act,
         2 * (env.getLastD ⟨0, 0⟩).obs, (env.getLastD ⟨0, 0⟩).act) := by
  rcases List.eq_nil_or_concat env with rfl | ⟨L, b, rfl⟩
  · exact absurd rfl h
  · simp [VariationalJointEmpowerment.init_from_env, VariationalJointEmpowerment.new,
      MLPNetwork.new, List.concat_eq_append, List.foldl_append, jointSizingStep,
      List.getLastD_concat]

/-- Witness for C2 at the concrete two-agent environment `cenv2`. -/
theorem C2_witness :
    cenv2 ≠ [] ∧
    (((VariationalJointEmpowerment.init_from_env cenv2 zeroInit).2.num_in_src,
      (VariationalJointEmpowerment.init_from_env cenv2 zeroInit).2.num_out_src,
      (VariationalJointEmpowerment.init_from_env cenv2 zeroInit).2.num_in_plan,
      (VariationalJointEmpowerment.init_from_env cenv2 zeroInit).2.num_out_plan)
       = ((cenv2.getLastD ⟨0, 0⟩).obs, (cenv2.getLastD ⟨0, 0⟩).act,
          2 * (cenv2.getLastD ⟨0, 0⟩).obs, (cenv2.getLastD ⟨0, 0⟩).act) ∧
     ((VariationalJointEmpowerment.init_from_env cenv2 zeroInit).1.source.num_in,
      (VariationalJointEmpowerment.init_from_env cenv2 zeroInit).1.source.num_out,
      (VariationalJointEmpowerment.init_from_env cenv2 zeroInit).1.planning.num_in,
      (VariationalJointEmpowerment.init_from_env cenv2 zeroInit).1.planning.num_out)
       = ((cenv2.getLastD ⟨0, 0⟩).obs, (cenv2.getLastD ⟨0, 0⟩).act,
          2 * (cenv2.getLastD ⟨0, 0⟩).obs, (cenv2.getLastD ⟨0, 0⟩).act)) :=
  ⟨by decide, C2_joint_factory_sizes_from_last_agent cenv2 zeroInit (by decide)⟩

/-- C6: both factories size the shared transition network with input the
sum over agents of `obs + act` and output the sum over agents of `obs`;
in the transfer variant agent `i`'s planning network's output width equals
agent `i`'s action cardinality. -/
theorem C6_transition_and_planning_sizing (env : List Space)
    (pinit : Nat → Nat → List ℚ) (lr : ℚ) (hd : Nat) (rc cv : Bool) :
    (VariationalJointEmpowerment.init_from_env env pinit).1.transition.num_in
        = (env.map (fun sp => sp.obs + sp.act)).sum ∧
    (VariationalJointEmpowerment.init_from_env env pinit).1.transition.num_out
        = (env.map Space.obs).sum ∧
    (VariationalTransferEmpowerment.init_from_env env lr hd rc cv pinit).1.transition.num_in
        = (env.map (fun sp => sp.obs + sp.act)).sum ∧
    (VariationalTransferEmpowerment.init_from_env env lr hd rc cv pinit).1.transition.num_out
        = (env.map Space.obs).sum ∧
    ((VariationalTransferEmpowerment.init_from_env env lr hd rc cv pinit).1.planning.map
        MLPNetwork.num_out) = env.map Space.act := by
  obtain ⟨h1, h2⟩ := jointSizing_trans_sums env ⟨0, 0, 0, 0, 0, 0⟩
  refine ⟨?_, ?_, ?_, ?_, ?_⟩
  · simpa [VariationalJointEmpowerment.init_from_env,
      VariationalJointEmpowerment.new, MLPNetwork.new] using h1
  · simpa [VariationalJointEmpowerment.init_from_env,
      VariationalJointEmpowerment.new, MLPNetwork.new] using h2
  · simp [VariationalTransferEmpowerment.init_from_env,
      VariationalTransferEmpowerment.new, MLPNetwork.new, transferSizing_foldl]
  · simp [VariationalTransferEmpowerment.init_from_env,
      VariationalTransferEmpowerment.new, MLPNetwork.new, transferSizing_foldl]
  · simp [VariationalTransferEmpowerment.init_from_env,
      VariationalTransferEmpowerment.new, MLPNetwork.new, transferSizing_foldl,
      List.map_map, Function.comp, transferParamsOf]

/-- C9: reconstructing either variant from its stored init-parameters
yields approximators with the same input/output widths as the original,
whatever the (abstracted random) parameter initialisations of the two
constructions are. -/
theorem C9_round_trip_dimensions (env : List Space)
    (pinitA pinitB : Nat → Nat → List ℚ) (lr : ℚ) (hd : Nat) (rc cv : Bool) :
    ((VariationalJointEmpowerment.new
        (VariationalJointEmpowerment.init_from_env env pinitA).2 pinitB).transition.num_in,
     (VariationalJointEmpowerment.new
        (VariationalJointEmpowerment.init_from_env env pinitA).2 pinitB).transition.num_out,
     (VariationalJointEmpowerment.new
        (VariationalJointEmpowerment.init_from_env env pinitA).2 pinitB).source.num_in,
     (VariationalJointEmpowerment.new
        (VariationalJointEmpowerment.init_from_env env pinitA).2 pinitB).source.num_out,
     (VariationalJointEmpowerment.new
        (VariationalJointEmpowerment.init_from_env env pinitA).2 pinitB).planning.num_in,
     (VariationalJointEmpowerment.new
        (VariationalJointEmpowerment.init_from_env env pinitA).2 pinitB).planning.num_out)
      = ((VariationalJointEmpowerment.init_from_env env pinitA).1.transition.num_in,
         (VariationalJointEmpowerment.init_from_env env pinitA).1.transition.num_out,
         (VariationalJointEmpowerment.init_from_env env pinitA).1.source.num_in,
         (VariationalJointEmpowerment.init_from_env env pinitA).1.source.num_out,
         (VariationalJointEmpowerment.init_from_env env pinitA).1.planning.num_in,
         (VariationalJointEmpowerment.init_from_env env pinitA).1.planning.num_out) ∧
    ((VariationalTransferEmpowerment.new
        (VariationalTransferEmpowerment.init_from_env env lr hd rc cv pinitA).2.init_params
        (VariationalTransferEmpowerment.init_from_env env lr hd rc cv pinitA).2.num_in_trans
        (VariationalTransferEmpowerment.init_from_env env lr hd rc cv pinitA).2.num_out_trans
        (VariationalTransferEmpowerment.init_from_env env lr hd rc cv pinitA).2.lr
        (VariationalTransferEmpowerment.init_from_env env lr hd rc cv pinitA).2.hidden_dim
        (VariationalTransferEmpowerment.init_from_env env lr hd rc cv pinitA).2.recurrent
        (VariationalTransferEmpowerment.init_from_env env lr hd rc cv pinitA).2.convolutional
        pinitB).transition.num_in,
     (VariationalTransferEmpowerment.new
        (VariationalTransferEmpowerment.init_from_env env lr hd rc cv pinitA).2.init_params
        (VariationalTransferEmpowerment.init_from_env env lr hd rc cv pinitA).2.num_in_trans
        (VariationalTransferEmpowerment.init_from_env env lr hd rc cv pinitA).2.num_out_trans
        (VariationalTransferEmpowerment.init_from_env env lr hd rc cv pinitA).2.lr
        (VariationalTransferEmpowerment.init_from_env env lr hd rc cv pinitA).2.hidden_dim
        (VariationalTransferEmpowerment.init_from_env env lr hd rc cv pinitA).2.recurrent
        (VariationalTransferEmpowerment.init_from_env env lr hd rc cv pinitA).2.convolutional
        pinitB).transition.num_out)
      = ((VariationalTransferEmpowerment.init_from_env env lr hd rc cv pinitA).1.transition.num_in,
         (VariationalTransferEmpowerment.init_from_env env lr hd rc cv pinitA).1.transition.num_out) ∧
    ((VariationalTransferEmpowerment.new
        (VariationalTransferEmpowerment.init_from_env env lr hd rc cv pinitA).2.init_params
        (VariationalTransferEmpowerment.init_from_env env lr hd rc cv pinitA).2.num_in_trans
        (VariationalTransferEmpowerment.init_from_env env lr hd rc cv pinitA).2.num_out_trans
        (VariationalTransferEmpowerment.init_from_env env lr hd rc cv pinitA).2.lr
        (VariationalTransferEmpowerment.init_from_env env lr hd rc cv pinitA).2.hidden_dim
        (VariationalTransferEmpowerment.init_from_env env lr hd rc cv pinitA).2.recurrent
        (VariationalTransferEmpowerment.init_from_env env lr hd rc cv pinitA).2.convolutional
        pinitB).source.map (fun m => (m.num_in, m.num_out)))
      = ((VariationalTransferEmpowerment.init_from_env env lr hd rc cv pinitA).1.source.map
          (fun m => (m.num_in, m.num_out))) ∧
    ((VariationalTransferEmpowerment.new
        (VariationalTransferEmpowerment.init_from_env env lr hd rc cv pinitA).2.init_params
        (VariationalTransferEmpowerment.init_from_env env lr hd rc cv pinitA).2.num_in_trans
        (VariationalTransferEmpowerment.init_from_env env lr hd rc cv pinitA).2.num_out_trans
        (VariationalTransferEmpowerment.init_from_env env lr hd rc cv pinitA).2.lr
        (VariationalTransferEmpowerment.init_from_env env lr hd rc cv pinitA).2.hidden_dim
        (VariationalTransferEmpowerment.init_from_env env lr hd rc cv pinitA).2.recurrent
        (VariationalTransferEmpowerment.init_from_env env lr hd rc cv pinitA).2.convolutional
        pinitB).planning.map (fun m => (m.num_in, m.num_out)))
      = ((VariationalTransferEmpowerment.init_from_env env lr hd rc cv pinitA).1.planning.map
          (fun m => (m.num_in, m.num_out))) := by
  refine ⟨rfl, rfl, ?_, ?_⟩
  · simp [VariationalTransferEmpowerment.init_from_env,
      VariationalTransferEmpowerment.new, MLPNetwork.new, List.map_map, Function.comp]
  · simp [VariationalTransferEmpowerment.init_from_env,
      VariationalTransferEmpowerment.new, MLPNetwork.new, List.map_map, Function.comp]

/-- C1 (evaluation at the failing input): with observation widths
`[3, 5, 2]` and a width-10 stub transition output, the transfer variant's
`update` slices the cumulative columns `[0:3]`, `[3:8]`, `[8:10]` as the
claim states, but `compute` — whose `start` is initialised to 0 and never
advanced — slices `[0:3]`, `[0:5]`, `[0:2]` instead, so the claim fails
for `compute`. -/
theorem C1_transfer_compute_slices_not_cumulative :
    VariationalTransferEmpowerment.computeNnoSlices c1TransOut c1NextObs
      = [[[0, 1, 2]], [[0, 1, 2, 3, 4]], [[0, 1]]] ∧
    VariationalTransferEmpowerment.updateNnoSlices c1TransOut c1NextObs
      = [[[0, 1, 2]], [[3, 4, 5, 6, 7]], [[8, 9]]] ∧
    VariationalTransferEmpowerment.updateNnoSlices c1TransOut c1NextObs
      = [sliceCols c1TransOut 0 3, sliceCols c1TransOut 3 8, sliceCols c1TransOut 8 10] ∧
    VariationalTransferEmpowerment.computeNnoSlices c1TransOut c1NextObs
      ≠ [sliceCols c1TransOut 0 3, sliceCols c1TransOut 3 8, sliceCols c1TransOut 8 10] := by
  refine ⟨rfl, rfl, rfl, ?_⟩
  decide

/-- Reading an element of a dropped-and-taken row: for `j < w` the `j`-th
column of `(row.drop a).take w` is column `a + j` of `row`. -/
theorem rowSlice_getD (row : List ℚ) (a w j : Nat) (hj : j < w) :
    ((row.drop a).take w).getD j 0 = row.getD (a + j) 0 := by
  rw [List.getD_eq_getElem?_getD, List.getElem?_take, if_pos hj, List.getElem?_drop,
    List.getD_eq_getElem?_getD]

/-- Row `r` of a column slice is the slice of row `r` (rows past the end
give the empty row on both sides). -/
theorem sliceCols_getD_row (m : Mat) (a b r : Nat) :
    (sliceCols m a b).getD r [] = ((m.getD r []).drop a).take (b - a) := by
  rw [sliceCols, List.getD_eq_getElem?_getD, List.getElem?_map,
    List.getD_eq_getElem?_getD m]
  cases m[r]? with
  | none => simp
  | some row => rfl

/-- Entry `(r, j)` of the column slice `[a : a + w]` is entry `(r, a + j)`
of the original tensor, for `j < w`. -/
theorem sliceCols_entry (m : Mat) (a w r j : Nat) (hj : j < w) :
    ((sliceCols m a (a + w)).getD r []).getD j 0 = (m.getD r []).getD (a + j) 0 := by
  rw [sliceCols_getD_row, Nat.add_sub_cancel_left, rowSlice_getD _ _ _ _ hj]

/-- Row `r` of `nnoSlices` applied through `getD`, for `i` in range. -/
theorem nnoSlices_getD (trans_out : Mat) (next_obs : List Mat) (i : Nat)
    (hi : i < next_obs.length) :
    (VariationalJointEmpowerment.nnoSlices trans_out next_obs).getD i []
      = VariationalJointEmpowerment.nnoSlice trans_out (jointNObs next_obs) i := by
  rw [VariationalJointEmpowerment.nnoSlices,
    List.getD_eq_getElem _ _ (by simpa using hi), List.getElem_map, List.getElem_enum]

/-- C10: the joint variant's `compute` and `update` slice the transition
output into uniform blocks of width `n_obs`, agent 0's observation width:
agent `i` receives columns `[i*w0 : (i+1)*w0]`, and entry `(r, j)` of agent
`i`'s slice is entry `(r, i*w0 + j)` of the transition output. -/
theorem C10_joint_uniform_width_slicing (trans_out : Mat) (next_obs : List Mat)
    (i r j : Nat) (hi : i < next_obs.length)
    (hj : j < matWidth (next_obs.headD [])) :
    jointNObs next_obs = matWidth (next_obs.headD []) ∧
    (VariationalJointEmpowerment.nnoSlices trans_out next_obs).length
      = next_obs.length ∧
    (VariationalJointEmpowerment.nnoSlices trans_out next_obs).getD i []
      = sliceCols trans_out (i * matWidth (next_obs.headD []))
          ((i + 1) * matWidth (next_obs.headD [])) ∧
    (((VariationalJointEmpowerment.nnoSlices trans_out next_obs).getD i []).getD r []).getD j 0
      = (trans_out.getD r []).getD (i * matWidth (next_obs.headD []) + j) 0 := by
  have hslice := nnoSlices_getD trans_out next_obs i hi
  refine ⟨rfl, by simp [VariationalJointEmpowerment.nnoSlices], ?_, ?_⟩
  · rw [hslice]; rfl
  · rw [hslice]
    show (((sliceCols trans_out (i * jointNObs next_obs)
        ((i + 1) * jointNObs next_obs)).getD r []).getD j 0) = _
    have hj' : j < jointNObs next_obs := hj
    rw [Nat.succ_mul i (jointNObs next_obs), sliceCols_entry _ _ _ _ _ hj']
    rfl

/-- Witness for C10: three agents of observation width 3, agent 1, entry
`(0, 1)` of its slice is column `3*1 + 1 = 4` of the stub output. -/
theorem C10_witness :
    1 < ([[[0, 0, 0]], [[0, 0, 0]], [[0, 0, 0]]] : List Mat).length ∧
    1 < matWidth (([[[0, 0, 0]], [[0, 0, 0]], [[0, 0, 0]]] : List Mat).headD []) ∧
    (jointNObs [[[0, 0, 0]], [[0, 0, 0]], [[0, 0, 0]]]
      = matWidth (([[[0, 0, 0]], [[0, 0, 0]], [[0, 0, 0]]] : List Mat).headD []) ∧
    (VariationalJointEmpowerment.nnoSlices c1TransOut
        [[[0, 0, 0]], [[0, 0, 0]], [[0, 0, 0]]]).length
      = ([[[0, 0, 0]], [[0, 0, 0]], [[0, 0, 0]]] : List Mat).length ∧
    (VariationalJointEmpowerment.nnoSlices c1TransOut
        [[[0, 0, 0]], [[0, 0, 0]], [[0, 0, 0]]]).getD 1 []
      = sliceCols c1TransOut
          (1 * matWidth (([[[0, 0, 0]], [[0, 0, 0]], [[0, 0, 0]]] : List Mat).headD []))
          ((1 + 1) * matWidth (([[[0, 0, 0]], [[0, 0, 0]], [[0, 0, 0]]] : List Mat).headD [])) ∧
    (((VariationalJointEmpowerment.nnoSlices c1TransOut
        [[[0, 0, 0]], [[0, 0, 0]], [[0, 0, 0]]]).getD 1 []).getD 0 []).getD 1 0
      = (c1TransOut.getD 0 []).getD
          (1 * matWidth (([[[0, 0, 0]], [[0, 0, 0]], [[0, 0, 0]]] : List Mat).headD []) + 1) 0) :=
  ⟨by decide, by decide,
   C10_joint_uniform_width_slicing c1TransOut
     [[[0, 0, 0]], [[0, 0, 0]], [[0, 0, 0]]] 1 0 1 (by decide) (by decide)⟩

/-- C3: in both variants `compute` returns one value per agent — an array
of length `rewards.shape[1]` — and all entries are the identical scalar
(the mean of `E` broadcast over a row of ones), whatever the networks,
samplers and inputs are. -/
theorem C3_compute_broadcast_scalar (fwd : MLPNetwork → Mat → Mat)
    (gH gS : String → Mat → Mat) (sJ : VariationalJointEmpowerment)
    (sT : VariationalTransferEmpowerment) (n : Nat) (nextObsCol : Nat → Mat) :
    ((VariationalJointEmpowerment.compute fwd gH gS sJ n nextObsCol).2.length = n ∧
     ∀ a ∈ (VariationalJointEmpowerment.compute fwd gH gS sJ n nextObsCol).2,
       ∀ b ∈ (VariationalJointEmpowerment.compute fwd gH gS sJ n nextObsCol).2, a = b) ∧
    ((VariationalTransferEmpowerment.compute fwd gH gS sT n nextObsCol).2.length = n ∧
     ∀ a ∈ (VariationalTransferEmpowerment.compute fwd gH gS sT n nextObsCol).2,
       ∀ b ∈ (VariationalTransferEmpowerment.compute fwd gH gS sT n nextObsCol).2, a = b) := by
  refine ⟨⟨?_, ?_⟩, ⟨?_, ?_⟩⟩
  · simp [VariationalJointEmpowerment.compute]
  · intro a ha b hb
    simp only [VariationalJointEmpowerment.compute, List.mem_map] at ha hb
    obtain ⟨x, hx, rfl⟩ := ha
    obtain ⟨y, hy, rfl⟩ := hb
    rw [List.eq_of_mem_replicate hx, List.eq_of_mem_replicate hy]
  · simp [VariationalTransferEmpowerment.compute]
  · intro a ha b hb
    simp only [VariationalTransferEmpowerment.compute, List.mem_map] at ha hb
    obtain ⟨x, hx, rfl⟩ := ha
    obtain ⟨y, hy, rfl⟩ := hb
    rw [List.eq_of_mem_replicate hx, List.eq_of_mem_replicate hy]

/-- C8: `compute` mutates nothing in either variant — the full estimator
state (networks with their parameters, the three device tags, `niter`) is
returned exactly as supplied — and it returns one value per agent on every
call. -/
theorem C8_compute_side_effect_free (fwd : MLPNetwork → Mat → Mat)
    (gH gS : String → Mat → Mat) (sJ : VariationalJointEmpowerment)
    (sT : VariationalTransferEmpowerment) (n : Nat) (nextObsCol : Nat → Mat) :
    (VariationalJointEmpowerment.compute fwd gH gS sJ n nextObsCol).1 = sJ ∧
    (VariationalJointEmpowerment.compute fwd gH gS sJ n nextObsCol).2.length = n ∧
    (VariationalTransferEmpowerment.compute fwd gH gS sT n nextObsCol).1 = sT ∧
    (VariationalTransferEmpowerment.compute fwd gH gS sT n nextObsCol).2.length = n := by
  refine ⟨rfl, ?_, rfl, ?_⟩
  · simp [VariationalJointEmpowerment.compute]
  · simp [VariationalTransferEmpowerment.compute]

/-- Membership in the reference list a network contributes to an
optimizer. -/
theorem mem_paramRefs {g g' : Group} {i n : Nat} :
    (g', i) ∈ paramRefs g n ↔ g' = g ∧ i < n := by
  simp only [paramRefs, List.mem_map, List.mem_range, Prod.mk.injEq]
  constructor
  · rintro ⟨a, ha, rfl, rfl⟩
    exact ⟨rfl, ha⟩
  · rintro ⟨rfl, hi⟩
    exact ⟨i, hi, rfl, rfl⟩

/-- A parameter vector whose role is referenced nowhere in an optimizer is
returned untouched by the optimizer's step. -/
theorem updateParams_frame (refs : List (Group × Nat)) (δ : Group → Nat → ℚ)
    (g : Group) (ps : List ℚ) (h : ∀ i, (g, i) ∉ refs) :
    updateParams refs δ g ps = ps := by
  rw [updateParams, List.mapIdx_eq_enum_map]
  have hcong : ∀ p ∈ ps.enum,
      Function.uncurry (fun i p => if (g, i) ∈ refs then p + δ g i else p) p
        = Prod.snd p := by
    intro p _
    simp [Function.uncurry, h p.1]
  rw [List.map_congr_left hcong, List.enum_map_snd]

/-- C7: the joint variant's source optimizer references exactly the union
of the source network's and the planning network's parameters, so its step
(run as step 3 of `update`) can move both source and planning parameters —
as it does on a concrete estimator — while the transition network's
parameters are always left unchanged. -/
theorem C7_joint_source_optimizer_couples_planning
    (s : VariationalJointEmpowerment) (δ : Group → Nat → ℚ) :
    (∀ g i, (g, i) ∈ VariationalJointEmpowerment.source_optimizer s ↔
      ((g = Group.src ∧ i < s.source.params.length) ∨
       (g = Group.plan ∧ i < s.planning.params.length))) ∧
    (VariationalJointEmpowerment.optStep s
        (VariationalJointEmpowerment.source_optimizer s) δ).transition.params
      = s.transition.params ∧
    ((VariationalJointEmpowerment.optStep c7State
        (VariationalJointEmpowerment.source_optimizer c7State)
        (fun _ _ => 1)).source.params ≠ c7State.source.params ∧
     (VariationalJointEmpowerment.optStep c7State
        (VariationalJointEmpowerment.source_optimizer c7State)
        (fun _ _ => 1)).planning.params ≠ c7State.planning.params) := by
  refine ⟨?_, ?_, ?_, ?_⟩
  · intro g i
    simp [VariationalJointEmpowerment.source_optimizer, List.mem_append, mem_paramRefs]
  · show updateParams _ δ Group.trans s.transition.params = s.transition.params
    refine updateParams_frame _ _ _ _ ?_
    intro i hi
    rcases List.mem_append.mp hi with hmem | hmem
    · rcases mem_paramRefs.mp hmem with ⟨hg, _⟩
      exact Group.noConfusion hg
    · rcases mem_paramRefs.mp hmem with ⟨hg, _⟩
      exact Group.noConfusion hg
  · norm_num [c7State, VariationalJointEmpowerment.optStep,
      VariationalJointEmpowerment.source_optimizer, VariationalJointEmpowerment.new,
      MLPNetwork.new, oneParamInit, updateParams, paramRefs]
  · norm_num [c7State, VariationalJointEmpowerment.optStep,
      VariationalJointEmpowerment.source_optimizer, VariationalJointEmpowerment.new,
      MLPNetwork.new, oneParamInit, updateParams, paramRefs]

/-- One joint `update` call with a logger appends exactly one record (the
three losses, tagged with the pre-call `niter`) and then increments the
counter. -/
theorem jointUpdate_log_step (fwd : MLPNetwork → Mat → Mat)
    (gH gS : String → Mat → Mat) (dT dP dS : Group → Nat → ℚ)
    (s : VariationalJointEmpowerment) (obs acs next_obs : List Mat)
    (l : List LogEntry) :
    (∃ tl pl ir, (VariationalJointEmpowerment.update fwd gH gS dT dP dS s obs acs
        next_obs (some l)).2 = some (l ++ [⟨tl, pl, ir, s.niter⟩])) ∧
    (VariationalJointEmpowerment.update fwd gH gS dT dP dS s obs acs next_obs
        (some l)).1.niter = s.niter + 1 :=
  ⟨⟨_, _, _, rfl⟩, rfl⟩

/-- One transfer `update` call with a logger appends exactly one record
(the three losses, tagged with the pre-call `niter`) and then increments
the counter. -/
theorem transferUpdate_log_step (fwd : MLPNetwork → Mat → Mat)
    (gH gS : String → Mat → Mat) (dT : Nat → ℚ) (dP dS : Nat → Nat → ℚ)
    (s : VariationalTransferEmpowerment) (obs acs next_obs : List Mat)
    (l : List LogEntry) :
    (∃ tl pl ir, (VariationalTransferEmpowerment.update fwd gH gS dT dP dS s obs acs
        next_obs (some l)).2 = some (l ++ [⟨tl, pl, ir, s.niter⟩])) ∧
    (VariationalTransferEmpowerment.update fwd gH gS dT dP dS s obs acs next_obs
        (some l)).1.niter = s.niter + 1 :=
  ⟨⟨_, _, _, rfl⟩, rfl⟩

/-- After `k` logged joint updates the counter has advanced by `k` and the
logged step indices are `niter₀, niter₀+1, …` in order. -/
theorem runJointUpdates_log (a : Nat → JointUpdateArgs)
    (s0 : VariationalJointEmpowerment) (k : Nat) :
    (runJointUpdates a s0 k).1.niter = s0.niter + k ∧
    (runJointUpdates a s0 k).2.map LogEntry.step = List.range' s0.niter k := by
  induction k with
  | zero => simp [runJointUpdates]
  | succ k ih =>
    obtain ⟨h1, h2⟩ := ih
    obtain ⟨⟨tl, pl, ir, hlog⟩, hni⟩ := jointUpdate_log_step (a k).fwd (a k).gH (a k).gS
      (a k).dT (a k).dP (a k).dS (runJointUpdates a s0 k).1 (a k).obs (a k).acs
      (a k).next_obs (runJointUpdates a s0 k).2
    constructor
    · show (VariationalJointEmpowerment.update (a k).fwd (a k).gH (a k).gS
        (a k).dT (a k).dP (a k).dS (runJointUpdates a s0 k).1 (a k).obs (a k).acs
        (a k).next_obs (some (runJointUpdates a s0 k).2)).1.niter = s0.niter + (k + 1)
      rw [hni, h1]
      omega
    · show ((VariationalJointEmpowerment.update (a k).fwd (a k).gH (a k).gS
        (a k).dT (a k).dP (a k).dS (runJointUpdates a s0 k).1 (a k).obs (a k).acs
        (a k).next_obs (some (runJointUpdates a s0 k).2)).2.getD []).map LogEntry.step
          = List.range' s0.niter (k + 1)
      rw [hlog, List.range'_concat]
      simp [h1, h2]

/-- After `k` logged transfer updates the counter has advanced by `k` and
the logged step indices are `niter₀, niter₀+1, …` in order. -/
theorem runTransferUpdates_log (a : Nat → TransferUpdateArgs)
    (s0 : VariationalTransferEmpowerment) (k : Nat) :
    (runTransferUpdates a s0 k).1.niter = s0.niter + k ∧
    (runTransferUpdates a s0 k).2.map LogEntry.step = List.range' s0.niter k := by
  induction k with
  | zero => simp [runTransferUpdates]
  | succ k ih =>
    obtain ⟨h1, h2⟩ := ih
    obtain ⟨⟨tl, pl, ir, hlog⟩, hni⟩ := transferUpdate_log_step (a k).fwd (a k).gH (a k).gS
      (a k).dT (a k).dP (a k).dS (runTransferUpdates a s0 k).1 (a k).obs (a k).acs
      (a k).next_obs (runTransferUpdates a s0 k).2
    constructor
    · show (VariationalTransferEmpowerment.update (a k).fwd (a k).gH (a k).gS
        (a k).dT (a k).dP (a k).dS (runTransferUpdates a s0 k).1 (a k).obs (a k).acs
        (a k).next_obs (some (runTransferUpdates a s0 k).2)).1.niter = s0.niter + (k + 1)
      rw [hni, h1]
      omega
    · show ((VariationalTransferEmpowerment.update (a k).fwd (a k).gH (a k).gS
        (a k).dT (a k).dP (a k).dS (runTransferUpdates a s0 k).1 (a k).obs (a k).acs
        (a k).next_obs (some (runTransferUpdates a s0 k).2)).2.getD []).map LogEntry.step
          = List.range' s0.niter (k + 1)
      rw [hlog, List.range'_concat]
      simp [h1, h2]

/-- C5: on a freshly constructed estimator of either variant, every `update`
call with a logger appends exactly one record carrying the three losses, so
after `k` calls the log has `k` records whose step indices are
`0, 1, …, k-1` in order (start at 0, increase by exactly 1 per call), and
the counter — incremented only after the logger call — ends at `k`. -/
theorem C5_update_logger_steps (aJ : Nat → JointUpdateArgs)
    (aT : Nat → TransferUpdateArgs) (ipJ : JointInitParams)
    (ipT : List TransferInitParams) (nit not : Nat) (lr : ℚ) (hd : Nat)
    (rc cv : Bool) (pinit : Nat → Nat → List ℚ) (k : Nat) :
    ((runJointUpdates aJ (VariationalJointEmpowerment.new ipJ pinit) k).2.length = k ∧
     (runJointUpdates aJ (VariationalJointEmpowerment.new ipJ pinit) k).2.map
        LogEntry.step = List.range k ∧
     (runJointUpdates aJ (VariationalJointEmpowerment.new ipJ pinit) k).1.niter = k) ∧
    ((runTransferUpdates aT (VariationalTransferEmpowerment.new ipT nit not lr hd rc cv
        pinit) k).2.length = k ∧
     (runTransferUpdates aT (VariationalTransferEmpowerment.new ipT nit not lr hd rc cv
        pinit) k).2.map LogEntry.step = List.range k ∧
     (runTransferUpdates aT (VariationalTransferEmpowerment.new ipT nit not lr hd rc cv
        pinit) k).1.niter = k) := by
  obtain ⟨hJ1, hJ2⟩ := runJointUpdates_log aJ (VariationalJointEmpowerment.new ipJ pinit) k
  obtain ⟨hT1, hT2⟩ := runTransferUpdates_log aT
    (VariationalTransferEmpowerment.new ipT nit not lr hd rc cv pinit) k
  have hnJ : (VariationalJointEmpowerment.new ipJ pinit).niter = 0 := rfl
  have hnT : (VariationalTransferEmpowerment.new ipT nit not lr hd rc cv pinit).niter = 0 :=
    rfl
  rw [hnJ] at hJ1 hJ2
  rw [hnT] at hT1 hT2
  refine ⟨⟨?_, ?_, ?_⟩, ⟨?_, ?_, ?_⟩⟩
  · have := congrArg List.length hJ2
    simpa [List.range_eq_range'] using this
  · rw [hJ2, List.range_eq_range']
  · simpa using hJ1
  · have := congrArg List.length hT2
    simpa [List.range_eq_range'] using this
  · rw [hT2, List.range_eq_range']
  · simpa using hT1

/-- Moving a module between devices never changes its train/eval mode. -/
theorem prepFn_mode (d : String) (m : MLPNetwork) : (prepFn d m).mode = m.mode := by
  rw [prepFn]
  split <;> rfl

/-- Calling `.train()` on a module already in train mode is the identity. -/
theorem MLPNetwork.setTrain_eq_self {m : MLPNetwork} (h : m.mode = Mode.train) :
    m.setTrain = m := by
  cases m
  simp_all [MLPNetwork.setTrain]

/-- After joint `prep_training` all three networks are in train mode. -/
theorem jointPrep_modes (s : VariationalJointEmpowerment) (d : String) :
    (VariationalJointEmpowerment.prep_training s d).1.transition.mode = Mode.train ∧
    (VariationalJointEmpowerment.prep_training s d).1.source.mode = Mode.train ∧
    (VariationalJointEmpowerment.prep_training s d).1.planning.mode = Mode.train := by
  refine ⟨?_, ?_, ?_⟩ <;>
    · simp only [VariationalJointEmpowerment.prep_training]
      split <;> simp [prepFn_mode, MLPNetwork.setTrain]

/-- After joint `prep_training` every device tag equals the request. -/
theorem jointPrep_devs (s : VariationalJointEmpowerment) (d : String) :
    (VariationalJointEmpowerment.prep_training s d).1.trans_dev = d ∧
    (VariationalJointEmpowerment.prep_training s d).1.source_dev = d ∧
    (VariationalJointEmpowerment.prep_training s d).1.plan_dev = d := by
  refine ⟨?_, ?_, ?_⟩ <;>
    · simp only [VariationalJointEmpowerment.prep_training]
      split <;> simp_all

/-- A joint `prep_training` call records a group as moved exactly when its
stored tag differs from the request. -/
theorem jointPrep_mem (s : VariationalJointEmpowerment) (d : String) :
    (Group.trans ∈ (VariationalJointEmpowerment.prep_training s d).2 ↔
      ¬ s.trans_dev = d) ∧
    (Group.src ∈ (VariationalJointEmpowerment.prep_training s d).2 ↔
      ¬ s.source_dev = d) ∧
    (Group.plan ∈ (VariationalJointEmpowerment.prep_training s d).2 ↔
      ¬ s.plan_dev = d) := by
  simp only [VariationalJointEmpowerment.prep_training]
  by_cases h1 : s.trans_dev = d <;> by_cases h2 : s.source_dev = d <;>
    by_cases h3 : s.plan_dev = d <;> simp [h1, h2, h3]

/-- A second joint `prep_training` with the same device transfers nothing
and leaves the state unchanged. -/
theorem jointPrep_idem (s : VariationalJointEmpowerment) (d : String) :
    VariationalJointEmpowerment.prep_training
        (VariationalJointEmpowerment.prep_training s d).1 d
      = ((VariationalJointEmpowerment.prep_training s d).1, []) := by
  obtain ⟨hd1, hd2, hd3⟩ := jointPrep_devs s d
  obtain ⟨hm1, hm2, hm3⟩ := jointPrep_modes s d
  generalize hx : (VariationalJointEmpowerment.prep_training s d).1 = x
    at hd1 hd2 hd3 hm1 hm2 hm3 ⊢
  clear hx
  obtain ⟨t, so, pl, td, sd, pd, ni⟩ := x
  dsimp only at hd1 hd2 hd3 hm1 hm2 hm3
  rw [hd1, hd2, hd3]
  simp [VariationalJointEmpowerment.prep_training, MLPNetwork.setTrain_eq_self hm1,
    MLPNetwork.setTrain_eq_self hm2, MLPNetwork.setTrain_eq_self hm3]

/-- After transfer `prep_training` the transition network is in train mode. -/
theorem transferPrep_trans_mode (s : VariationalTransferEmpowerment) (d : String) :
    (VariationalTransferEmpowerment.prep_training s d).1.transition.mode = Mode.train := by
  simp only [VariationalTransferEmpowerment.prep_training]
  split <;> simp [prepFn_mode, MLPNetwork.setTrain]

/-- When the source group is actually moved, its networks all end in train
mode (the `.train()` call sits inside the device guard). -/
theorem transferPrep_source_modes (s : VariationalTransferEmpowerment) (d : String)
    (h : ¬ s.source_dev = d) :
    ∀ m ∈ (VariationalTransferEmpowerment.prep_training s d).1.source,
      m.mode = Mode.train := by
  simp only [VariationalTransferEmpowerment.prep_training, if_neg h]
  intro m hm
  simp only [List.mem_map] at hm
  obtain ⟨m0, _, rfl⟩ := hm
  simp [MLPNetwork.setTrain]

/-- When the planning group is actually moved, its networks all end in
train mode. -/
theorem transferPrep_plan_modes (s : VariationalTransferEmpowerment) (d : String)
    (h : ¬ s.plan_dev = d) :
    ∀ m ∈ (VariationalTransferEmpowerment.prep_training s d).1.planning,
      m.mode = Mode.train := by
  simp only [VariationalTransferEmpowerment.prep_training, if_neg h]
  intro m hm
  simp only [List.mem_map] at hm
  obtain ⟨m0, _, rfl⟩ := hm
  simp [MLPNetwork.setTrain]

/-- After transfer `prep_training` every device tag equals the request. -/
theorem transferPrep_devs (s : VariationalTransferEmpowerment) (d : String) :
    (VariationalTransferEmpowerment.prep_training s d).1.trans_dev = d ∧
    (VariationalTransferEmpowerment.prep_training s d).1.source_dev = d ∧
    (VariationalTransferEmpowerment.prep_training s d).1.plan_dev = d := by
  refine ⟨?_, ?_, ?_⟩ <;>
    · simp only [VariationalTransferEmpowerment.prep_training]
      split <;> simp_all

/-- A transfer `prep_training` call records a group as moved exactly when
its stored tag differs from the request. -/
theorem transferPrep_mem (s : VariationalTransferEmpowerment) (d : String) :
    (Group.trans ∈ (VariationalTransferEmpowerment.prep_training s d).2 ↔
      ¬ s.trans_dev = d) ∧
    (Group.src ∈ (VariationalTransferEmpowerment.prep_training s d).2 ↔
      ¬ s.source_dev = d) ∧
    (Group.plan ∈ (VariationalTransferEmpowerment.prep_training s d).2 ↔
      ¬ s.plan_dev = d) := by
  simp only [VariationalTransferEmpowerment.prep_training]
  by_cases h1 : s.trans_dev = d <;> by_cases h2 : s.source_dev = d <;>
    by_cases h3 : s.plan_dev = d <;> simp [h1, h2, h3]

/-- A second transfer `prep_training` with the same device transfers
nothing and leaves the state unchanged. -/
theorem transferPrep_idem (s : VariationalTransferEmpowerment) (d : String) :
    VariationalTransferEmpowerment.prep_training
        (VariationalTransferEmpowerment.prep_training s d).1 d
      = ((VariationalTransferEmpowerment.prep_training s d).1, []) := by
  obtain ⟨hd1, hd2, hd3⟩ := transferPrep_devs s d
  have hm1 := transferPrep_trans_mode s d
  generalize hx : (VariationalTransferEmpowerment.prep_training s d).1 = x
    at hd1 hd2 hd3 hm1 ⊢
  clear hx
  obtain ⟨t, so, pl, td, sd, pd, ni⟩ := x
  dsimp only at hd1 hd2 hd3 hm1
  rw [hd1, hd2, hd3]
  simp [VariationalTransferEmpowerment.prep_training, MLPNetwork.setTrain_eq_self hm1]

/-- C4 counterexample: on a factory-built one-agent transfer estimator put
into rollout (eval) mode on the cpu, calling `prep_training('cpu')` — the
stored device tags already match — does NOT switch the source network to
training mode, contradicting the claim that every `prep_training` call
switches all approximators to training mode. -/
theorem C4_counterexample :
    ¬ (∀ m ∈ (VariationalTransferEmpowerment.prep_training
          (VariationalTransferEmpowerment.prep_rollouts c4State cpuDev) cpuDev).1.source,
        m.mode = Mode.train) := by
  decide

/-- C4 (amended): in the joint variant every `prep_training(device)` call
puts all three approximators in training mode; in the transfer variant the
transition network is always put in training mode while the per-agent
source and planning networks are put in training mode only when their
group's device tag differs from the request.  In both variants a group is
moved exactly when its stored tag differs from the requested device, and a
second consecutive call with the same device performs no transfer and
leaves the state unchanged. -/
theorem C4_prep_training_amended (sJ : VariationalJointEmpowerment)
    (sT : VariationalTransferEmpowerment) (d : String) :
    ((VariationalJointEmpowerment.prep_training sJ d).1.transition.mode = Mode.train ∧
     (VariationalJointEmpowerment.prep_training sJ d).1.source.mode = Mode.train ∧
     (VariationalJointEmpowerment.prep_training sJ d).1.planning.mode = Mode.train) ∧
    ((Group.trans ∈ (VariationalJointEmpowerment.prep_training sJ d).2 ↔
        ¬ sJ.trans_dev = d) ∧
     (Group.src ∈ (VariationalJointEmpowerment.prep_training sJ d).2 ↔
        ¬ sJ.source_dev = d) ∧
     (Group.plan ∈ (VariationalJointEmpowerment.prep_training sJ d).2 ↔
        ¬ sJ.plan_dev = d)) ∧
    (VariationalJointEmpowerment.prep_training
        (VariationalJointEmpowerment.prep_training sJ d).1 d
      = ((VariationalJointEmpowerment.prep_training sJ d).1, [])) ∧
    ((VariationalTransferEmpowerment.prep_training sT d).1.transition.mode
        = Mode.train ∧
     (¬ sT.source_dev = d →
        ∀ m ∈ (VariationalTransferEmpowerment.prep_training sT d).1.source,
          m.mode = Mode.train) ∧
     (¬ sT.plan_dev = d →
        ∀ m ∈ (VariationalTransferEmpowerment.prep_training sT d).1.planning,
          m.mode = Mode.train)) ∧
    ((Group.trans ∈ (VariationalTransferEmpowerment.prep_training sT d).2 ↔
        ¬ sT.trans_dev = d) ∧
     (Group.src ∈ (VariationalTransferEmpowerment.prep_training sT d).2 ↔
        ¬ sT.source_dev = d) ∧
     (Group.plan ∈ (VariationalTransferEmpowerment.prep_training sT d).2 ↔
        ¬ sT.plan_dev = d)) ∧
    (VariationalTransferEmpowerment.prep_training
        (VariationalTransferEmpowerment.prep_training sT d).1 d
      = ((VariationalTransferEmpowerment.prep_training sT d).1, [])) :=
  ⟨jointPrep_modes sJ d, jointPrep_mem sJ d, jointPrep_idem sJ d,
   ⟨transferPrep_trans_mode sT d, transferPrep_source_modes sT d,
    transferPrep_plan_modes sT d⟩,
   transferPrep_mem sT d, transferPrep_idem sT d⟩

/-- Witness for the amended C4 at concrete estimators and device `'gpu'`. -/
theorem C4_witness :
    ((VariationalJointEmpowerment.prep_training c7State gpuDev).1.transition.mode
        = Mode.train ∧
     (VariationalJointEmpowerment.prep_training c7State gpuDev).1.source.mode
        = Mode.train ∧
     (VariationalJointEmpowerment.prep_training c7State gpuDev).1.planning.mode
        = Mode.train) ∧
    ((Group.trans ∈ (VariationalJointEmpowerment.prep_training c7State gpuDev).2 ↔
        ¬ c7State.trans_dev = gpuDev) ∧
     (Group.src ∈ (VariationalJointEmpowerment.prep_training c7State gpuDev).2 ↔
        ¬ c7State.source_dev = gpuDev) ∧
     (Group.plan ∈ (VariationalJointEmpowerment.prep_training c7State gpuDev).2 ↔
        ¬ c7State.plan_dev = gpuDev)) ∧
    (VariationalJointEmpowerment.prep_training
        (VariationalJointEmpowerment.prep_training c7State gpuDev).1 gpuDev
      = ((VariationalJointEmpowerment.prep_training c7State gpuDev).1, [])) ∧
    ((VariationalTransferEmpowerment.prep_training c4State gpuDev).1.transition.mode
        = Mode.train ∧
     (¬ c4State.source_dev = gpuDev →
        ∀ m ∈ (VariationalTransferEmpowerment.prep_training c4State gpuDev).1.source,
          m.mode = Mode.train) ∧
     (¬ c4State.plan_dev = gpuDev →
        ∀ m ∈ (VariationalTransferEmpowerment.prep_training c4State gpuDev).1.planning,
          m.mode = Mode.train)) ∧
    ((Group.trans ∈ (VariationalTransferEmpowerment.prep_training c4State gpuDev).2 ↔
        ¬ c4State.trans_dev = gpuDev) ∧
     (Group.src ∈ (VariationalTransferEmpowerment.prep_training c4State gpuDev).2 ↔
        ¬ c4State.source_dev = gpuDev) ∧
     (Group.plan ∈ (VariationalTransferEmpowerment.prep_training c4State gpuDev).2 ↔
        ¬ c4State.plan_dev = gpuDev)) ∧
    (VariationalTransferEmpowerment.prep_training
        (VariationalTransferEmpowerment.prep_training c4State gpuDev).1 gpuDev
      = ((VariationalTransferEmpowerment.prep_training c4State gpuDev).1, [])) :=
  C4_prep_training_amended c7State c4State gpuDev

end SocialEmpowerment
